import Mathlib

/-!
Verification of the key-value storage engine and JSON-RPC dispatcher in
src/sever/server.go (package server).

The store state is the `data map[string]string` field of `InMemoryStorage`,
embedded as a partial map `String → Option String`.  The mutex only
serializes access and has no sequential semantics, so it is not modelled.
Each storage method is embedded as a state-passing function returning its
Go result together with the (possibly updated) store.

`HandleRequest` is embedded from the point where the request body has been
decoded.  Go's dynamic type assertions (`req.Params.(map[string]interface{})`
and `["key"].(string)`) panic when they fail; a panic is modelled by the
dispatcher returning `none`, while `some (resp, s')` models a normally
encoded response together with the final store.
-/

/-- The `data map[string]string` field of `InMemoryStorage`. -/
abbrev Store : Type := String → Option String

/-- The store made by `NewInMemoryStorage`: an empty map. -/
def emptyStore : Store := fun _ => none

/-- A Go `error` value: only its `Error()` message is observable here. -/
structure GoError where
  message : String
deriving DecidableEq, Repr

/-- `Get` (server.go lines 31-39): map lookup; absent key yields the error
`key not found`, and the store is not written. -/
def InMemoryStorage.Get (s : Store) (key : String) : Except GoError String × Store :=
  match s key with
  | some value => (Except.ok value, s)
  | none => (Except.error ⟨"key not found"⟩, s)

/-- `Post` (server.go lines 41-46): `s.data[key] = value`; always returns nil. -/
def InMemoryStorage.Post (s : Store) (key value : String) : Option GoError × Store :=
  (none, fun k => if k = key then some value else s k)

/-- `Put` (server.go lines 48-53): `s.data[key] = value`; always returns nil. -/
def InMemoryStorage.Put (s : Store) (key value : String) : Option GoError × Store :=
  (none, fun k => if k = key then some value else s k)

/-- `Delete` (server.go lines 55-60): `delete(s.data, key)`; always returns nil
(Go's built-in `delete` is a no-op on an absent key). -/
def InMemoryStorage.Delete (s : Store) (key : String) : Option GoError × Store :=
  (none, fun k => if k = key then none else s k)

/-- A decoded Go `interface{}` value as produced by `encoding/json`,
restricted to the shapes the dispatcher inspects. -/
inductive GoValue : Type where
  | nil : GoValue
  | str : String → GoValue
  | num : Int → GoValue
  | obj : List (String × GoValue) → GoValue

/-- Go type assertion `.(map[string]interface{})`: panics (`none`) unless the
value is a JSON object. -/
def assertMap : GoValue → Option (List (String × GoValue))
  | GoValue.obj fields => some fields
  | _ => none

/-- Go type assertion `.(string)`: panics (`none`) unless the value is a
string (in particular a nil interface value panics). -/
def assertString : GoValue → Option String
  | GoValue.str s => some s
  | _ => none

/-- Go map indexing `m[k]`: yields the zero value (nil interface) when the
key is absent. -/
def mapIndex (fields : List (String × GoValue)) (key : String) : GoValue :=
  (fields.lookup key).getD GoValue.nil

/-- A decoded `jsonrpc.RPCRequest`. -/
structure RPCRequest where
  jsonrpc : String
  id : Int
  method : String
  params : GoValue

/-- `jsonrpc.RPCError`. -/
structure RPCError where
  code : Int
  message : String
deriving DecidableEq, Repr

/-- `jsonrpc.RPCResponse`; `result` and `error` are `none` when the Go field
was left nil (absent after encoding). The dispatcher only ever stores
strings in `Result`. -/
structure RPCResponse where
  jsonrpc : String
  id : Int
  result : Option String
  error : Option RPCError
deriving DecidableEq, Repr

/-- `JSONRPCServer.HandleRequest` (server.go lines 72-127), from the point
where the body has decoded into `req`.  `none` models an unrecovered panic
in a dynamic type assertion; `some (resp, s')` models the encoded response
and the resulting store. -/
def JSONRPCServer.HandleRequest (storage : Store) (req : RPCRequest) :
    Option (RPCResponse × Store) :=
  match req.method with
  | "get" =>
    match assertMap req.params with
    | none => none
    | some params =>
      match assertString (mapIndex params "key") with
      | none => none
      | some key =>
        match InMemoryStorage.Get storage key with
        | (Except.error err, s') =>
          some ({ jsonrpc := "2.0", id := req.id, result := none,
                  error := some ⟨1, err.message⟩ }, s')
        | (Except.ok value, s') =>
          some ({ jsonrpc := "2.0", id := req.id, result := some value,
                  error := none }, s')
  | "post" =>
    match assertMap req.params with
    | none => none
    | some params =>
      match assertString (mapIndex params "key") with
      | none => none
      | some key =>
        match assertString (mapIndex params "value") with
        | none => none
        | some value =>
          match InMemoryStorage.Post storage key value with
          | (some err, s') =>
            some ({ jsonrpc := "2.0", id := req.id, result := none,
                    error := some ⟨1, err.message⟩ }, s')
          | (none, s') =>
            some ({ jsonrpc := "2.0", id := req.id, result := some "success",
                    error := none }, s')
  | "put" =>
    match assertMap req.params with
    | none => none
    | some params =>
      match assertString (mapIndex params "key") with
      | none => none
      | some key =>
        match assertString (mapIndex params "value") with
        | none => none
        | some value =>
          match InMemoryStorage.Put storage key value with
          | (some err, s') =>
            some ({ jsonrpc := "2.0", id := req.id, result := none,
                    error := some ⟨1, err.message⟩ }, s')
          | (none, s') =>
            some ({ jsonrpc := "2.0", id := req.id, result := some "success",
                    error := none }, s')
  | "delete" =>
    match assertMap req.params with
    | none => none
    | some params =>
      match assertString (mapIndex params "key") with
      | none => none
      | some key =>
        match InMemoryStorage.Delete storage key with
        | (some err, s') =>
          some ({ jsonrpc := "2.0", id := req.id, result := none,
                  error := some ⟨1, err.message⟩ }, s')
        | (none, s') =>
          some ({ jsonrpc := "2.0", id := req.id, result := some "success",
                  error := none }, s')
  | _ =>
    some ({ jsonrpc := "2.0", id := req.id, result := none,
            error := some ⟨-32601, "Method not found"⟩ }, storage)

/-- Claim C2: for every store state, key and value, `Post(k, v)` followed by
`Get(k)` on the resulting store succeeds and returns `v`. -/
theorem post_then_get_returns_value (s : Store) (k v : String) :
    (InMemoryStorage.Get (InMemoryStorage.Post s k v).2 k).1 = Except.ok v := by
  simp [InMemoryStorage.Get, InMemoryStorage.Post]

/-- Claim C4: `Put(k, v1)` then `Put(k, v2)` followed by `Get(k)` returns
`v2`: the second write overwrites the first (last write wins). -/
theorem put_put_get_last_write_wins (s : Store) (k v1 v2 : String) :
    (InMemoryStorage.Get (InMemoryStorage.Put (InMemoryStorage.Put s k v1).2 k v2).2 k).1 =
      Except.ok v2 := by
  simp [InMemoryStorage.Get, InMemoryStorage.Put]

/-- Claim C3: `Get(k)` fails with the not-found error whenever `k` is absent
from the store (never written), and in particular `Delete(k)` immediately
followed by `Get(k)` fails with the not-found error. -/
theorem get_absent_or_deleted_not_found :
    (∀ (s : Store) (k : String), s k = none →
      (InMemoryStorage.Get s k).1 = Except.error ⟨"key not found"⟩) ∧
    (∀ (s : Store) (k : String),
      (InMemoryStorage.Get (InMemoryStorage.Delete s k).2 k).1 =
        Except.error ⟨"key not found"⟩) := by
  constructor
  · intro s k h
    simp [InMemoryStorage.Get, h]
  · intro s k
    simp [InMemoryStorage.Get, InMemoryStorage.Delete]

/-- Witness for claim C3 at the empty store and key `a`. -/
theorem get_absent_or_deleted_not_found_witness :
    (InMemoryStorage.Get emptyStore "a").1 = Except.error ⟨"key not found"⟩ :=
  get_absent_or_deleted_not_found.1 emptyStore "a" rfl

/-- Claim C8: `Post` and `Put` are behaviorally identical: on every store,
key and value they return the same result and the same resulting store. -/
theorem post_put_identical (s : Store) (k v : String) :
    InMemoryStorage.Post s k v = InMemoryStorage.Put s k v := rfl

/-- Claim C1 counterexample: on the empty store the key `a` is absent, yet
`Delete` returns nil (no NotFound error) and the dispatcher's delete branch
answers with result `success` and no error, refuting the claim as stated. -/
theorem delete_absent_key_claim_cex :
    emptyStore "a" = none ∧
    (InMemoryStorage.Delete emptyStore "a").1 = none ∧
    ((JSONRPCServer.HandleRequest emptyStore
        ⟨"2.0", 1, "delete", GoValue.obj [("key", GoValue.str "a")]⟩).map
      fun p => (p.1.result, p.1.error)) = some (some "success", none) :=
  ⟨rfl, rfl, rfl⟩

/-- Claim C1 amended: for every store state and every key `k` absent from the
store, `Delete(k)` succeeds (returns nil, since Go's map delete is a no-op on
an absent key), and the dispatcher's delete branch returns result `success`
with no error for such a key. -/
theorem delete_absent_key_succeeds (s : Store) (k : String) (i : Int)
    (h : s k = none) :
    (InMemoryStorage.Delete s k).1 = none ∧
    ((JSONRPCServer.HandleRequest s
        ⟨"2.0", i, "delete", GoValue.obj [("key", GoValue.str k)]⟩).map
      fun p => (p.1.result, p.1.error)) = some (some "success", none) :=
  ⟨rfl, rfl⟩

/-- Witness for the amended claim C1 at the empty store, key `a`, id 5. -/
theorem delete_absent_key_succeeds_witness :
    (InMemoryStorage.Delete emptyStore "a").1 = none ∧
    ((JSONRPCServer.HandleRequest emptyStore
        ⟨"2.0", 5, "delete", GoValue.obj [("key", GoValue.str "a")]⟩).map
      fun p => (p.1.result, p.1.error)) = some (some "success", none) :=
  delete_absent_key_succeeds emptyStore "a" 5 rfl

/-- Claim C7: some decodable request crashes the dispatcher during params
extraction instead of producing a response: method `get` with an empty params
object makes `["key"].(string)` assert on a nil interface value, a panic. -/
theorem malformed_params_panics :
    JSONRPCServer.HandleRequest emptyStore ⟨"2.0", 3, "get", GoValue.obj []⟩ = none := rfl

/-- Claim C9: `Post` and `Put` always return nil, so both dispatcher write
branches are unreachable on the error side and always answer with result
`success` and no error. -/
theorem post_put_always_succeed (s : Store) (i : Int) (k v : String) :
    (InMemoryStorage.Post s k v).1 = none ∧
    (InMemoryStorage.Put s k v).1 = none ∧
    ((JSONRPCServer.HandleRequest s
        ⟨"2.0", i, "post", GoValue.obj [("key", GoValue.str k), ("value", GoValue.str v)]⟩).map
      fun p => (p.1.result, p.1.error)) = some (some "success", none) ∧
    ((JSONRPCServer.HandleRequest s
        ⟨"2.0", i, "put", GoValue.obj [("key", GoValue.str k), ("value", GoValue.str v)]⟩).map
      fun p => (p.1.result, p.1.error)) = some (some "success", none) :=
  ⟨rfl, rfl, rfl, rfl⟩

/-- Claim C6: a decodable request whose method is none of get, post, put or
delete gets the reserved error -32601 `Method not found`, no result, and
leaves the store unchanged. -/
theorem unknown_method_error (s : Store) (req : RPCRequest)
    (h1 : req.method ≠ "get") (h2 : req.method ≠ "post")
    (h3 : req.method ≠ "put") (h4 : req.method ≠ "delete") :
    JSONRPCServer.HandleRequest s req =
      some ({ jsonrpc := "2.0", id := req.id, result := none,
              error := some ⟨-32601, "Method not found"⟩ }, s) := by
  unfold JSONRPCServer.HandleRequest
  split <;> simp_all

/-- Witness for claim C6: method `createUser` on the empty store. -/
theorem unknown_method_error_witness :
    JSONRPCServer.HandleRequest emptyStore ⟨"2.0", 4, "createUser", GoValue.obj []⟩ =
      some ({ jsonrpc := "2.0", id := 4, result := none,
              error := some ⟨-32601, "Method not found"⟩ }, emptyStore) :=
  unknown_method_error emptyStore ⟨"2.0", 4, "createUser", GoValue.obj []⟩
    (by decide) (by decide) (by decide) (by decide)

/-- Claim C5: whenever the dispatcher returns a response (the body decoded
and params extraction did not panic), the response echoes the request id and
populates exactly one of result and error. -/
theorem response_echoes_id_exactly_one (s : Store) (req : RPCRequest)
    (resp : RPCResponse) (s' : Store)
    (h : JSONRPCServer.HandleRequest s req = some (resp, s')) :
    resp.id = req.id ∧
      ((resp.result.isSome ∧ resp.error = none) ∨
        (resp.result = none ∧ resp.error.isSome)) := by
  unfold JSONRPCServer.HandleRequest at h
  split at h <;> (try (repeat' split at h)) <;> (try exact Option.noConfusion h) <;>
    injection h with h1 <;> injection h1 with hr hs <;> subst hr <;> simp

/-- Witness for claim C5: a get on the empty store answers with the id
echoed and only the error field populated. -/
theorem response_echoes_id_exactly_one_witness :
    (7 : Int) = (7 : Int) ∧
      (((some "x" : Option String).isSome ∧ (none : Option RPCError) = none) ∨
        ((some "x" : Option String) = none ∧ (none : Option RPCError).isSome)) := by
  have h := response_echoes_id_exactly_one
    (InMemoryStorage.Post emptyStore "a" "x").2
    ⟨"2.0", 7, "get", GoValue.obj [("key", GoValue.str "a")]⟩
    { jsonrpc := "2.0", id := 7, result := some "x", error := none }
    (InMemoryStorage.Post emptyStore "a" "x").2
    rfl
  exact h

/-- Claim C10 (frame property): `Post`, `Put` and `Delete` at `k` leave the
mapping of every other key `k'` unchanged, and `Get` returns the store
unchanged (it is read-only). -/
theorem ops_frame_property (s : Store) (k v k' : String) (h : k' ≠ k) :
    (InMemoryStorage.Post s k v).2 k' = s k' ∧
    (InMemoryStorage.Put s k v).2 k' = s k' ∧
    (InMemoryStorage.Delete s k).2 k' = s k' ∧
    (InMemoryStorage.Get s k).2 = s := by
  refine ⟨?_, ?_, ?_, ?_⟩
  · simp [InMemoryStorage.Post, h]
  · simp [InMemoryStorage.Put, h]
  · simp [InMemoryStorage.Delete, h]
  · unfold InMemoryStorage.Get
    split <;> rfl

/-- Witness for claim C10 at the empty store, keys `a` and `b`. -/
theorem ops_frame_property_witness :
    (InMemoryStorage.Post emptyStore "a" "1").2 "b" = emptyStore "b" ∧
    (InMemoryStorage.Put emptyStore "a" "1").2 "b" = emptyStore "b" ∧
    (InMemoryStorage.Delete emptyStore "a").2 "b" = emptyStore "b" ∧
    (InMemoryStorage.Get emptyStore "a").2 = emptyStore :=
  ops_frame_property emptyStore "a" "1" "b" (by decide)
